/-
Verification of the spot-quickstart control-and-capture engine.

Shallow embedding of the repository's `src/main.py` and `src/robot.py`:
the orchestrated session (`jdu_spot`), the relative-move polling loop
(`Robot.move`), the lease operations, the power transitions, and the
image decode / normalize / blend pipeline
(`Robot._convertVisualToImage`, `Robot._convertDepthToImage`,
`Robot.getImage`, `Robot.getDepthBlend`).

Python strings are embedded as `List Char`; numpy `uint16` payload bytes
as `List ℕ`; float64 arithmetic of the depth normalization as exact `ℚ`
with explicit floor at the `astype("uint8")` truncation; calls into the
external OpenCV / scipy / bosdyn libraries are embedded symbolically
(free constructors of `Img`, lease-service state machine) so that no
pixel semantics are invented.
-/
import Mathlib

/-! ## Camera tables (robot.py lines 52-58, main.py lines 16-39) -/

/-- The five camera positions iterated by main.py's `cameras` list. -/
def camerasList : List (List Char) :=
  ["frontleft".toList, "frontright".toList, "left".toList, "right".toList, "back".toList]

/-- `Robot.camera_angles` (robot.py lines 52-58): position → rotation angle. -/
def cameraAngles : List (List Char × ℤ) :=
  [("back".toList, 0), ("frontleft".toList, -78), ("frontright".toList, -102),
   ("left".toList, 0), ("right".toList, 180)]

/-- Python dict lookup `self.camera_angles[key]`; `none` models the KeyError. -/
def lookupAngle (k : List Char) : Option ℤ :=
  (cameraAngles.find? (fun p => p.1 == k)).map (fun p => p.2)

/-! ## Python string operations used by `Robot.getImage` -/

/-- Does `hay` start with `needle`? (building block of Python's `in`). -/
def pyStartsWith : List Char → List Char → Bool
  | [], _ => true
  | _ :: _, [] => false
  | a :: ns, b :: hs => a == b && pyStartsWith ns hs

/-- Python substring containment `needle in hay` (robot.py line 287). -/
def pyContains (needle : List Char) : List Char → Bool
  | [] => needle.isEmpty
  | c :: t => pyStartsWith needle (c :: t) || pyContains needle t

/-- Python `source.split("_")[0]` (robot.py line 284): the prefix of the
name before the first underscore (the whole name when there is none). -/
def splitHead : List Char → List Char
  | [] => []
  | c :: t => if c = '_' then [] else c :: splitHead t

def depthStr : List Char := "depth".toList

/-! ## Sensor frames and the image pipeline -/

/-- Pixel-format tag of a sensor frame (`image.pixel_format`).
`unsupported tag` stands for every tag outside the five handled by
robot.py lines 394-408. -/
inductive PixelFormat
  | depthU16 | rgbU8 | rgbaU8 | greyscaleU8 | greyscaleU16
  | unsupported (tag : ℕ)
deriving DecidableEq

/-- `image.format`: RAW row/col layout versus an already-encoded container. -/
inductive ImgFormat | raw | encoded
deriving DecidableEq

/-- Raw payload returned by the image service for one source
(pixel format tag, container format, declared dims, byte buffer). -/
structure SensorFrame where
  pixelFormat : PixelFormat
  format : ImgFormat
  rows : ℕ
  cols : ℕ
  data : List ℕ
deriving DecidableEq

inductive NpDtype | uint8 | uint16
deriving DecidableEq

def NpDtype.itemsize : NpDtype → ℕ
  | .uint8 => 1
  | .uint16 => 2

/-- The `if/elif` dispatch of robot.py lines 394-408: pixel format →
(num_bytes, dtype). There is no `else` branch in the source, so an
unsupported tag leaves both variables unassigned: `none`.
Note the `greyscaleU16` row narrows dtype to uint8 while declaring
2 bytes per pixel, exactly as in the source (lines 406-408). -/
def pixelFormatParams : PixelFormat → Option (ℕ × NpDtype)
  | .depthU16 => some (1, .uint16)
  | .rgbU8 => some (3, .uint8)
  | .rgbaU8 => some (4, .uint8)
  | .greyscaleU8 => some (1, .uint8)
  | .greyscaleU16 => some (2, .uint8)
  | .unsupported _ => none

/-- Python exception kinds that the embedded pipeline can surface.
`unsupportedFormat` is the distinct error kind the specification
postulates for unknown pixel formats; the source never produces it
(its dispatch has no else branch and instead dies with
`unboundLocalError` at `np.frombuffer(..., dtype=dtype)`).
`cvError` is cv2.error, raised by the OpenCV fusion calls on inputs
violating their preconditions. -/
inductive PyErr
  | unboundLocalError
  | unsupportedFormat
  | valueError
  | keyError
  | cvError
deriving DecidableEq

inductive CvtCode | rgb2gray | gray2rgb
deriving DecidableEq

/-- Image values flowing through the pipeline. The successful results of
the external OpenCV / scipy operations (`cv.imdecode`, `cv.cvtColor`,
`cv.applyColorMap(JET)`, `cv.addWeighted`, `ndimage.rotate`) are
embedded as free constructors — deterministic functions of their
arguments — while the failure modes of those calls are carried by the
`Except` wrappers around them (`ndimageRotate`, the `FusionOracle`
below). `rawProto` is the undecoded protobuf image that
`Robot.getImage` falls back to when conversion throws.
`gray8 d8` is the normalized 8-bit depth array; `gray8Undefined n` marks
the array produced after the `255.0 / 0` division on a uniform buffer:
numpy yields `inf`, then `inf * 0 = nan`, and the `astype("uint8")`
cast of `nan` has no defined value, so no pixel values exist to embed. -/
inductive Img where
  | reshaped (rows cols channels : ℕ) (bytes : List ℕ)
  | imdecoded (bytes : List ℕ)
  | rawProto (f : SensorFrame)
  | gray8 (d8 : List ℤ)
  | gray8Undefined (n : ℕ)
  | cvtColor (code : CvtCode) (i : Img)
  | applyColorMapJet (i : Img)
  | addWeighted (a : Img) (wa : ℚ) (b : Img) (wb : ℚ) (gamma : ℚ)
  | rotated (angle : ℤ) (i : Img)
deriving DecidableEq

/-- `Robot._convertVisualToImage` (robot.py lines 385-419).
`np.frombuffer` fails when the byte count is not a multiple of the
dtype's item size; a RAW frame is reshaped to rows×cols×num_bytes when
the element count matches, and otherwise (ValueError caught, lines
412-415) or for non-RAW containers falls back to `cv.imdecode`. -/
def convertVisualToImage (f : SensorFrame) : Except PyErr Img :=
  match pixelFormatParams f.pixelFormat with
  | none => .error .unboundLocalError
  | some (numBytes, dtype) =>
    if f.data.length % dtype.itemsize ≠ 0 then .error .valueError
    else
      let elemCount := f.data.length / dtype.itemsize
      if f.format = ImgFormat.raw then
        if elemCount = f.rows * f.cols * numBytes then
          .ok (Img.reshaped f.rows f.cols numBytes f.data)
        else .ok (Img.imdecoded f.data)
      else .ok (Img.imdecoded f.data)

/-- Little-endian pairing performed by `np.frombuffer(data, dtype=np.uint16)`. -/
def bytesToU16 : List ℕ → List ℕ
  | b0 :: b1 :: rest => (b0 + 256 * b1) :: bytesToU16 rest
  | _ => []

/-- The normalization step of `Robot._convertDepthToImage`
(robot.py lines 433-436): per-call min/max over the whole buffer, then
`(255.0 / (max - min) * (v - min)).astype("uint8")`, embedded in exact
rational arithmetic with floor at the uint8 truncation (all values lie
in [0, 255], so the C cast truncates toward zero, i.e. floors).
`none` marks the cases with no defined result: the empty buffer
(`np.min` raises) and `max = min`, where the source divides 255.0 by
zero (numpy: `inf`, then `inf * 0 = nan`, whose uint8 cast is not
defined). -/
def depthNormalize : List ℚ → Option (List ℤ)
  | [] => none
  | x :: xs =>
    if (xs.foldl max x) - (xs.foldl min x) = 0 then none
    else
      some ((x :: xs).map (fun v =>
        Int.floor (255 / ((xs.foldl max x) - (xs.foldl min x)) * (v - xs.foldl min x))))

/-- Lines 436-438 of robot.py: normalized depth → GRAY2RGB → JET colormap. -/
def depthToColors (data : List ℚ) : Option Img :=
  (depthNormalize data).map
    (fun d8 => Img.applyColorMapJet (Img.cvtColor .gray2rgb (Img.gray8 d8)))

/-- `Robot._convertDepthToImage` (robot.py lines 421-440): frombuffer as
uint16 (odd byte counts raise), strict reshape to rows×cols (a mismatch
raises — no fallback), `np.min` on an empty buffer raises, then the
min/max normalization and colormapping. A uniform buffer divides by
zero and yields the undefined-pixel array (see `depthNormalize`). -/
def convertDepthToImage (f : SensorFrame) : Except PyErr Img :=
  if f.data.length % 2 ≠ 0 then .error .valueError
  else
    let elems := bytesToU16 f.data
    if elems.length ≠ f.rows * f.cols then .error .valueError
    else if elems.isEmpty then .error .valueError
    else
      match depthToColors (elems.map (fun n => (n : ℚ))) with
      | some img => .ok img
      | none =>
        .ok (Img.applyColorMapJet (Img.cvtColor .gray2rgb (Img.gray8Undefined elems.length)))

/-- Which conversion `Robot.getImage` picks (robot.py line 287):
substring test `"depth" in source`. -/
inductive DecodeChoice | depth | visual
deriving DecidableEq

def decodeChoice (source : List Char) : DecodeChoice :=
  if pyContains depthStr source then .depth else .visual

/-- The conversion attempted inside the `try` of `Robot.getImage`
(robot.py lines 286-294). -/
def decodeStep (source : List Char) (f : SensorFrame) : Except PyErr Img :=
  match decodeChoice source with
  | .depth => convertDepthToImage f
  | .visual => convertVisualToImage f

/-- Array dimensionality of each image value, as fixed by the embedding:
`np.asarray` of the raw protobuf message is a 0-d object array, a raw
reshape is 3-D, and external decode results are modelled as well-formed
arrays of their typical dimensionality. Used by the
`len(visual.shape) == 3` test of robot.py lines 320-324 and by the
at-least-2-D requirement of `ndimage.rotate`. -/
def imgDims : Img → ℕ
  | .reshaped _ _ _ _ => 3
  | .imdecoded _ => 2
  | .rawProto _ => 0
  | .gray8 _ => 2
  | .gray8Undefined _ => 2
  | .cvtColor .gray2rgb _ => 3
  | .cvtColor .rgb2gray _ => 2
  | .applyColorMapJet _ => 3
  | .addWeighted _ _ _ _ _ => 3
  | .rotated _ i => imgDims i

/-- `scipy.ndimage.rotate` (robot.py lines 296 and 327): raises
ValueError unless its input is at least a 2-D array. In particular the
undecoded protobuf message kept by `getImage`'s except-fallback becomes
a 0-d object array under `np.asarray`, so rotating it raises instead of
producing an image. -/
def ndimageRotate (angle : ℤ) (i : Img) : Except PyErr Img :=
  if imgDims i < 2 then .error .valueError
  else .ok (Img.rotated angle i)

/-- `Robot.getImage` (robot.py lines 269-298): fetch one frame, pick the
decode path by the `"depth"` substring test, catch any conversion
exception (leaving `image` bound to the raw protobuf value), then
rotate by the angle of `source.split("_")[0]` (KeyError if the prefix
is unknown; ValueError from `ndimage.rotate` if the value to rotate is
not an array) and persist. The returned `.ok` value is the artifact
handed to `saveImage` (whose `cv.imwrite` failures are logged, not
raised); an `.error` aborts the capture with nothing persisted. -/
def getImage (source : List Char) (f : SensorFrame) : Except PyErr Img :=
  let image : Img :=
    match decodeStep source f with
    | .ok i => i
    | .error _ => Img.rawProto f
  match lookupAngle (splitHead source) with
  | none => .error .keyError
  | some a => ndimageRotate a image

/-- Failure oracle for the external OpenCV fusion calls of
`Robot.getDepthBlend` (robot.py lines 320-326): `cv.cvtColor` and
`cv.addWeighted` raise cv2.error on inputs violating their
preconditions (channel-count or shape mismatches of externally decoded
frames). The embedding does not reconstruct OpenCV's internal checks;
it quantifies over both outcomes of each call site. -/
structure FusionOracle where
  rgb2grayRaises : Bool
  gray2rgbRaises : Bool
  addWeightedRaises : Bool
deriving DecidableEq

/-- Lines 320-324 of robot.py: collapse the visual image to
single-luma-replicated 3-channel (RGB2GRAY then GRAY2RGB when the
decoded visual has 3 dims, GRAY2RGB alone otherwise), each
`cv.cvtColor` call fallible per the oracle. -/
def visualToRgb (o : FusionOracle) (v : Img) : Except PyErr Img :=
  if imgDims v = 3 then
    if o.rgb2grayRaises then .error .cvError
    else if o.gray2rgbRaises then .error .cvError
    else .ok (Img.cvtColor .gray2rgb (Img.cvtColor .rgb2gray v))
  else
    if o.gray2rgbRaises then .error .cvError
    else .ok (Img.cvtColor .gray2rgb v)

/-- `Robot.getDepthBlend` (robot.py lines 300-330). `df` and `vf` are the
frames fetched for `camera + "_depth_in_visual_frame"` and
`camera + "_fisheye_image"`. There is no try/except: an exception from
either decode, from the `cv.cvtColor` normalization, from
`cv.addWeighted`, from the angle lookup or from `ndimage.rotate`
propagates, and the save (which only happens at the very end) never
runs. The first component is the list of artifacts persisted, the
second the propagated exception, if any. -/
def getDepthBlend (o : FusionOracle) (camera : List Char) (df vf : SensorFrame) :
    List Img × Option PyErr :=
  match convertDepthToImage df with
  | .error e => ([], some e)
  | .ok depthImg =>
    match convertVisualToImage vf with
    | .error e => ([], some e)
    | .ok visual =>
      match visualToRgb o visual with
      | .error e => ([], some e)
      | .ok vrgb =>
        if o.addWeightedRaises then ([], some .cvError)
        else
          match lookupAngle camera with
          | none => ([], some .keyError)
          | some a =>
            match ndimageRotate a (Img.addWeighted vrgb (1/2) depthImg (1/2) 0) with
            | .error e => ([], some e)
            | .ok r => ([r], none)

/-! ## The relative-move polling loop (robot.py lines 205-267) -/

/-- One poll of `robot_command_feedback`: is the mobility status still
STATUS_PROCESSING, and the trajectory feedback's at-goal / settled bits. -/
structure MoveFeedback where
  processing : Bool
  atGoal : Bool
  settled : Bool
deriving DecidableEq

/-- robot.py lines 244-247: `end_time = 10.0` and the command is issued
with `end_time_secs = time.time() + end_time`. The offset is a
hard-coded constant; `Robot.move` takes no timeout parameter. -/
def moveEndTimeOffsetSecs : ℚ := 10

/-- The `while True` loop of robot.py lines 251-267, run against a
prefix of the feedback stream: not-processing → `some false`
("Failed to reach the goal"), at-goal and settled → `some true`
("Arrived at the goal"), otherwise sleep and poll again. `none` means
the loop has not terminated within the observed prefix — there is no
timeout check of any kind in the loop. -/
def movePoll : List MoveFeedback → Option Bool
  | [] => none
  | fb :: rest =>
    if ¬ fb.processing then some false
    else if fb.atGoal && fb.settled then some true
    else movePoll rest

/-- The specification's MotionOutcome vocabulary. -/
inductive MotionOutcome | reached | notReached | timeout
deriving DecidableEq

/-- `Robot.move`'s result mapped into the specification's vocabulary:
`True` is Reached, `False` is NotReached. No code path produces Timeout. -/
def moveOutcome (fs : List MoveFeedback) : Option MotionOutcome :=
  (movePoll fs).map (fun b => if b then .reached else .notReached)

/-! ## Lease operations (robot.py lines 83-99) -/

/-- Who currently holds the robot's lease (at most one holder). -/
structure LeaseState where
  holder : Option ℕ
deriving DecidableEq

structure Lease where
  owner : ℕ
deriving DecidableEq

inductive LeaseErr | leaseUnavailable
deriving DecidableEq

/-- Modelled from the external bosdyn SDK (a third-party dependency, not
part of this repository): `LeaseClient.take` seizes the lease
unconditionally, replacing any current holder; it does not fail or
block when another client holds the lease (that is the behavior of
`LeaseClient.acquire`, modelled as `leaseAcquire` below for contrast).
The repository's own docstring states the intent: "Takes or acquires
the lease ... this function ensures that we have the control." -/
def leaseTake (client : ℕ) (_s : LeaseState) : LeaseState × Lease :=
  (⟨some client⟩, ⟨client⟩)

/-- Modelled from the external bosdyn SDK: `LeaseClient.acquire` fails
(ResourceAlreadyClaimedError, the spec's LeaseUnavailable) when another
holder is active. The repository does NOT call this operation. -/
def leaseAcquire (client : ℕ) (s : LeaseState) : Except LeaseErr (LeaseState × Lease) :=
  match s.holder with
  | some _ => .error .leaseUnavailable
  | none => .ok (⟨some client⟩, ⟨client⟩)

/-- `Robot.getLease` (robot.py lines 83-89): `self.lease_client.take()`.
It always succeeds, whatever the current lease state. -/
def getLease (client : ℕ) (s : LeaseState) : Except LeaseErr (LeaseState × Lease) :=
  .ok (leaseTake client s)

/-! ## Power transitions (robot.py lines 101-129) -/

/-- Outcome environment for one power transition: whether the SDK call
itself raises, and what `robot.is_powered_on()` reports afterwards. -/
structure PowerEnv where
  powerOnCallRaises : Bool
  poweredAfterOn : Bool
  powerOffCallRaises : Bool
  poweredAfterOff : Bool
deriving DecidableEq

inductive PowerErr | sdkError | assertionError
deriving DecidableEq

/-- `Robot.powerOn` (robot.py lines 101-111): call `robot.power_on`, then
`assert self.robot.is_powered_on(), "Robot power on failed."`. -/
def powerOn (e : PowerEnv) : Except PowerErr Unit :=
  if e.powerOnCallRaises then .error .sdkError
  else if e.poweredAfterOn then .ok () else .error .assertionError

/-- `Robot.powerOff` (robot.py lines 113-129): call `robot.power_off`,
then `assert not self.robot.is_powered_on(), "Robot power off failed."`. -/
def powerOff (e : PowerEnv) : Except PowerErr Unit :=
  if e.powerOffCallRaises then .error .sdkError
  else if e.poweredAfterOff then .error .assertionError else .ok ()

/-! ## The orchestrated session `jdu_spot` (main.py lines 42-96) -/

inductive ExecutionType | move | images | elseBranch
deriving DecidableEq

/-- Steps of the session, as observable events. -/
inductive Ev
  | authenticate | assertNotEstop | getLeaseEv | keepAliveStart
  | powerOnEv | standUp | twistPosition | standTaller | moveCmd
  | getImageEv | getDepthBlendEv | powerOffEv | logComment
  | returnLeaseEv
deriving DecidableEq

/-- The module-level `execution` selector and the parsed CLI options
consumed by `jdu_spot` (main.py lines 15, 69-88). -/
structure Config where
  execution : ExecutionType
  source : List Char
  camera : List Char

/-- Failure oracle: which call of the session raises an exception.
`blendRaises` is indexed by camera name (the IMAGES branch may call
`getDepthBlend` once per camera). -/
structure Oracle where
  authRaises : Bool
  estopped : Bool
  getLeaseRaises : Bool
  keepAliveRaises : Bool
  powerOnRaises : Bool
  standUpRaises : Bool
  twistRaises1 : Bool
  twistRaises2 : Bool
  standTallerRaises : Bool
  moveRaises1 : Bool
  moveRaises2 : Bool
  getImageRaises : Bool
  blendRaises : List Char → Bool
  powerOffRaises : Bool
  logCommentRaises : Bool
  returnLeaseRaises : Bool

/-- Run a straight-line sequence of steps: each step is invoked (its
event recorded) and, if it raises, the rest of the sequence is skipped.
Second component: did the sequence raise? -/
def runSeq : List (Ev × Bool) → List Ev × Bool
  | [] => ([], false)
  | (e, raises) :: rest =>
    if raises then ([e], true)
    else
      let r := runSeq rest
      (e :: r.1, r.2)

def allStr : List Char := "all".toList

/-- The body of the `with spot.leaseKeepAlive():` block, per branch of
main.py lines 51-94 (MOVE: power on, stand, two twists, stand taller,
two moves, power off, log; IMAGES: power on, stand, optional single
capture, the camera == "all" loop over all five cameras, the
camera-in-cameras single blend, power off, log; ELSE: pass). -/
def branchSteps (o : Oracle) (c : Config) : List (Ev × Bool) :=
  match c.execution with
  | .move =>
    [(.powerOnEv, o.powerOnRaises), (.standUp, o.standUpRaises),
     (.twistPosition, o.twistRaises1), (.twistPosition, o.twistRaises2),
     (.standTaller, o.standTallerRaises),
     (.moveCmd, o.moveRaises1), (.moveCmd, o.moveRaises2),
     (.powerOffEv, o.powerOffRaises), (.logComment, o.logCommentRaises)]
  | .images =>
    [(.powerOnEv, o.powerOnRaises), (.standUp, o.standUpRaises)]
    ++ (if c.source ≠ [] then [(.getImageEv, o.getImageRaises)] else [])
    ++ (if c.camera = allStr then
          camerasList.map (fun cam => (.getDepthBlendEv, o.blendRaises cam))
        else [])
    ++ (if c.camera ∈ camerasList then [(.getDepthBlendEv, o.blendRaises c.camera)] else [])
    ++ [(.powerOffEv, o.powerOffRaises), (.logComment, o.logCommentRaises)]
  | .elseBranch => []

inductive Err | raised
deriving DecidableEq

/-- `jdu_spot` (main.py lines 42-96): authenticate, assert not e-stopped,
`getLease`, then `try: with leaseKeepAlive(): <branch> finally:
returnLease()`. The trace records every call made; the second component
is the exception escaping `jdu_spot`, if any (caught by `main`,
main.py lines 115-121). `returnLease` is reached on every path after a
successful `getLease`, including when entering the keep-alive context
or any branch step raises; it is never reached when `authenticate`,
the e-stop assertion or `getLease` itself raises. -/
def jduSpot (o : Oracle) (c : Config) : List Ev × Option Err :=
  if o.authRaises then ([.authenticate], some .raised)
  else if o.estopped then ([.authenticate, .assertNotEstop], some .raised)
  else if o.getLeaseRaises then ([.authenticate, .assertNotEstop, .getLeaseEv], some .raised)
  else
    let body : List Ev × Bool :=
      if o.keepAliveRaises then ([.keepAliveStart], true)
      else
        let r := runSeq (branchSteps o c)
        (.keepAliveStart :: r.1, r.2)
    ([.authenticate, .assertNotEstop, .getLeaseEv] ++ body.1 ++ [.returnLeaseEv],
     if o.returnLeaseRaises then some .raised
     else if body.2 then some .raised else none)

/-! ## Theorems -/

/-- Helper: on any feedback stream that stays Processing without
reaching goal-and-settled, the polling loop of `Robot.move` does not
terminate (no timeout check exists in the loop). -/
theorem movePoll_always_processing (fs : List MoveFeedback)
    (h : ∀ fb ∈ fs, fb.processing = true ∧ (fb.atGoal && fb.settled) = false) :
    movePoll fs = none := by
  induction fs with
  | nil => rfl
  | cons fb rest ih =>
    have hfb := h fb (by simp)
    rw [movePoll, if_neg (by simp [hfb.1]), if_neg (by simp [hfb.2])]
    exact ih (fun x hx => h x (by simp [hx]))

/-- Claim C2, counterexample: the claim predicts that with
`timeoutSeconds = 0` the relative move returns Timeout immediately and
never blocks. In the code there is no timeout parameter at all: the
locomotion command is issued with a hard-coded 10-second expiry
(`moveEndTimeOffsetSecs ≠ 0`), and on a feedback stream that stays
Processing the polling loop is still running after 240 polls (about two
minutes of wall-clock blocking) with no outcome, let alone a Timeout. -/
theorem c2_counterexample :
    moveOutcome (List.replicate 240 ⟨true, false, false⟩) = none ∧
      moveEndTimeOffsetSecs ≠ 0 := by
  constructor
  · have h : movePoll (List.replicate 240 ⟨true, false, false⟩) = none := by
      apply movePoll_always_processing
      intro fb hfb
      rcases (List.mem_replicate.mp hfb).2 with rfl
      exact ⟨rfl, rfl⟩
    unfold moveOutcome
    rw [h]
    rfl
  · unfold moveEndTimeOffsetSecs; norm_num

/-- Claim C2, amended: `Robot.move` issues its locomotion command with a
fixed expiry of 10 seconds from issue time (hard-coded, not
caller-supplied), and its polling loop performs no timeout check: it
never yields a Timeout outcome, and on any feedback stream that remains
Processing without reaching goal-and-settled it simply keeps polling
(no terminal outcome within any finite prefix of the stream). -/
theorem c2_amended :
    moveEndTimeOffsetSecs = 10 ∧
    (∀ fs : List MoveFeedback, moveOutcome fs ≠ some MotionOutcome.timeout) ∧
    (∀ fs : List MoveFeedback,
      (∀ fb ∈ fs, fb.processing = true ∧ (fb.atGoal && fb.settled) = false) →
      moveOutcome fs = none) := by
  refine ⟨rfl, ?_, ?_⟩
  · intro fs
    unfold moveOutcome
    cases h : movePoll fs with
    | none => simp
    | some b => cases b <;> simp
  · intro fs h
    unfold moveOutcome
    rw [movePoll_always_processing fs h]
    rfl

/-- Claim C2, witness for the amended theorem at a concrete
always-Processing stream of three polls. -/
theorem c2_witness :
    moveOutcome (List.replicate 3 ⟨true, false, false⟩) = none :=
  c2_amended.2.2 _ (by decide)

/-- Claim C3, counterexample: with client 0 already holding the lease,
`Robot.getLease` for client 1 does not raise LeaseUnavailable — it
succeeds, and the lease state afterwards shows holder 1: the existing
holder was preempted. -/
theorem c3_counterexample :
    getLease 1 ⟨some 0⟩ ≠ .error .leaseUnavailable ∧
      getLease 1 ⟨some 0⟩ = .ok (⟨some 1⟩, ⟨1⟩) := by
  constructor
  · intro h; cases h
  · rfl

/-- Claim C3, amended: `Robot.getLease` uses the bosdyn
`LeaseClient.take`, which forcibly takes the lease: for every lease
state — in particular when another holder's token is active — it
returns successfully with the caller as the new holder, never raising
LeaseUnavailable and never blocking; the orchestration then proceeds to
the power and command calls. -/
theorem c3_amended (client : ℕ) (s : LeaseState) :
    getLease client s = .ok (⟨some client⟩, ⟨client⟩) := rfl

/-- Claim C4: on a depth buffer whose pixels are all equal the
normalization has no defined value — the source computes
`255.0 / (max - min)` with `max - min = 0`, a division by zero (numpy:
`inf`, then `inf * 0 = nan`, whose uint8 cast is not defined) — contrary
to the claim that a defined output is produced without dividing by
zero. Evaluated at a concrete uniform 2×2 frame (four pixels of 1000,
little-endian bytes): the pipeline reaches the undefined-pixel array. -/
theorem c4_uniform_depth_divides_by_zero :
    depthNormalize (List.replicate 4 (1000 : ℚ)) = none ∧
      convertDepthToImage ⟨.depthU16, .raw, 2, 2, [232, 3, 232, 3, 232, 3, 232, 3]⟩ =
        .ok (Img.applyColorMapJet (Img.cvtColor .gray2rgb (Img.gray8Undefined 4))) := by
  constructor
  · show depthNormalize (1000 :: [1000, 1000, 1000]) = none
    norm_num [depthNormalize]
  · norm_num [convertDepthToImage, bytesToU16, depthToColors, depthNormalize]

/-- Claim C6, counterexample: decoding a visual frame whose pixel-format
tag is outside the supported set fails with an UnboundLocalError (the
dispatch chain of robot.py lines 394-408 has no else branch, so
`num_bytes` and `dtype` are never assigned and line 410 crashes), which
is not the distinct UnsupportedFormat error kind the claim requires. -/
theorem c6_counterexample :
    convertVisualToImage ⟨.unsupported 99, .raw, 2, 2, [0, 0, 0, 0]⟩ =
        .error PyErr.unboundLocalError ∧
      PyErr.unboundLocalError ≠ PyErr.unsupportedFormat := by
  exact ⟨rfl, by decide⟩

/-- Claim C6, amended: for every sensor frame whose pixel-format tag is
outside the supported set, the visual decode fails with an incidental
UnboundLocalError (unassigned `dtype`/`num_bytes`), not with a distinct
UnsupportedFormat error. -/
theorem c6_amended (f : SensorFrame) (tag : ℕ) (h : f.pixelFormat = .unsupported tag) :
    convertVisualToImage f = .error PyErr.unboundLocalError := by
  unfold convertVisualToImage
  rw [h]
  rfl

/-- Claim C6, witness for the amended theorem at a concrete frame. -/
theorem c6_witness :
    convertVisualToImage ⟨.unsupported 7, .encoded, 1, 1, []⟩ =
      .error PyErr.unboundLocalError :=
  c6_amended _ 7 rfl

/-- Claim C10: `Robot.powerOn` returns normally only if the robot
subsequently reports powered on, and `Robot.powerOff` returns normally
only if it subsequently reports not powered on; when the SDK call
completes but the reported state contradicts the transition, each
raises an assertion failure instead of returning. -/
theorem c10_power_assertions (e : PowerEnv) :
    (powerOn e = .ok () → e.poweredAfterOn = true) ∧
    (e.powerOnCallRaises = false → e.poweredAfterOn = false →
      powerOn e = .error PowerErr.assertionError) ∧
    (powerOff e = .ok () → e.poweredAfterOff = false) ∧
    (e.powerOffCallRaises = false → e.poweredAfterOff = true →
      powerOff e = .error PowerErr.assertionError) := by
  unfold powerOn powerOff
  rcases e with ⟨a, b, c, d⟩
  cases a <;> cases b <;> cases c <;> cases d <;> simp

/-- Claim C10, witness: the SDK call completes but the robot still
reports not powered on — `powerOn` raises the assertion failure. -/
theorem c10_witness :
    powerOn ⟨false, false, false, false⟩ = .error PowerErr.assertionError :=
  (c10_power_assertions ⟨false, false, false, false⟩).2.1 rfl rfl

/-- Helper: a positive-slope affine map commutes with binary `min` on ℚ. -/
theorem affine_min (a b x y : ℚ) (ha : 0 < a) :
    min (a * x + b) (a * y + b) = a * min x y + b := by
  rcases le_total x y with h | h
  · rw [min_eq_left (by nlinarith), min_eq_left h]
  · rw [min_eq_right (by nlinarith), min_eq_right h]

/-- Helper: a positive-slope affine map commutes with binary `max` on ℚ. -/
theorem affine_max (a b x y : ℚ) (ha : 0 < a) :
    max (a * x + b) (a * y + b) = a * max x y + b := by
  rcases le_total x y with h | h
  · rw [max_eq_right (by nlinarith), max_eq_right h]
  · rw [max_eq_left (by nlinarith), max_eq_left h]

/-- Helper: `foldl min` (the running minimum of robot.py line 433)
commutes with a positive-slope affine transformation of the buffer. -/
theorem foldl_min_affine (a b : ℚ) (ha : 0 < a) :
    ∀ (xs : List ℚ) (x : ℚ),
      (xs.map (fun v => a * v + b)).foldl min (a * x + b) = a * xs.foldl min x + b := by
  intro xs
  induction xs with
  | nil => intro x; simp
  | cons y ys ih =>
    intro x
    simp only [List.map_cons, List.foldl_cons]
    rw [affine_min a b x y ha, ih (min x y)]

/-- Helper: `foldl max` (the running maximum of robot.py line 434)
commutes with a positive-slope affine transformation of the buffer. -/
theorem foldl_max_affine (a b : ℚ) (ha : 0 < a) :
    ∀ (xs : List ℚ) (x : ℚ),
      (xs.map (fun v => a * v + b)).foldl max (a * x + b) = a * xs.foldl max x + b := by
  intro xs
  induction xs with
  | nil => intro x; simp
  | cons y ys ih =>
    intro x
    simp only [List.map_cons, List.foldl_cons]
    rw [affine_max a b x y ha, ih (max x y)]

/-- Helper: the min/max normalization of `Robot._convertDepthToImage` is
invariant under every positive-slope affine change of the depth buffer
(the per-call min/max cancels both the scale and the shift exactly). -/
theorem depthNormalize_affine (a b : ℚ) (ha : 0 < a) (d : List ℚ) :
    depthNormalize (d.map (fun v => a * v + b)) = depthNormalize d := by
  cases d with
  | nil => rfl
  | cons x xs =>
    simp only [List.map_cons, depthNormalize]
    rw [foldl_min_affine a b ha xs x, foldl_max_affine a b ha xs x]
    have hdiff : a * xs.foldl max x + b - (a * xs.foldl min x + b)
        = a * (xs.foldl max x - xs.foldl min x) := by ring
    rw [hdiff]
    by_cases h0 : xs.foldl max x - xs.foldl min x = 0
    · rw [h0, mul_zero, if_pos rfl, if_pos rfl]
    · have ha' : a ≠ 0 := ne_of_gt ha
      rw [if_neg (mul_ne_zero ha' h0), if_neg h0]
      have key : ∀ v : ℚ,
          (255 : ℚ) / (a * (xs.foldl max x - xs.foldl min x)) *
              (a * v + b - (a * xs.foldl min x + b))
            = 255 / (xs.foldl max x - xs.foldl min x) * (v - xs.foldl min x) := by
        intro v
        field_simp
        ring
      simp only [List.map_cons, List.map_map]
      rw [key x]
      refine congrArg some (congrArg (List.cons _) (List.map_congr_left (fun v _ => ?_)))
      simp only [Function.comp_apply]
      rw [key v]

/-- Claim C5: scaling a depth buffer by any positive factor and shifting
it by any amount before the min/max-based normalize step leaves the
depth-to-color conversion's output colors unchanged — the normalization
is invariant to affine changes of measurement units. (Proved for every
buffer; on non-uniform buffers both sides are the same defined color
image, on uniform ones both sides are the same undefined result.) -/
theorem c5_depth_colors_affine_invariant (a b : ℚ) (d : List ℚ) (ha : 0 < a) :
    depthToColors (d.map (fun v => a * v + b)) = depthToColors d := by
  unfold depthToColors
  rw [depthNormalize_affine a b ha d]

/-- Claim C5, witness: a concrete non-uniform buffer `[1, 3]` scaled by 2
and shifted by 5 yields the same colors. -/
theorem c5_witness :
    depthToColors ([1, 3].map (fun v => 2 * v + 5)) = depthToColors [1, 3] :=
  c5_depth_colors_affine_invariant 2 5 [1, 3] (by norm_num)

/-- Helper: every event recorded by `runSeq` is the event of some step of
the sequence it ran. -/
theorem runSeq_mem_fst : ∀ (l : List (Ev × Bool)) (e : Ev),
    e ∈ (runSeq l).1 → e ∈ l.map Prod.fst := by
  intro l
  induction l with
  | nil => intro e he; simp [runSeq] at he
  | cons p rest ih =>
    intro e he
    obtain ⟨ev, rs⟩ := p
    rw [runSeq] at he
    by_cases hr : rs = true
    · rw [if_pos hr] at he
      simp only [List.mem_singleton] at he
      simp [he]
    · rw [if_neg hr] at he
      simp only [List.mem_cons] at he
      rcases he with he | he
      · simp [he]
      · simp [ih e he]

/-- Helper: no branch of the keep-alive body ever calls `returnLease`
(robot.py reaches it only through the `finally` of main.py line 96). -/
theorem returnLease_not_in_branchSteps (o : Oracle) (c : Config) :
    Ev.returnLeaseEv ∉ (branchSteps o c).map Prod.fst := by
  rcases c with ⟨ex, src, cam⟩
  cases ex <;>
    simp only [branchSteps, camerasList, List.map_append, List.mem_append, List.map_map,
      List.mem_map, List.map_cons, List.map_nil, List.mem_cons, List.mem_singleton,
      List.not_mem_nil] <;>
    (try split_ifs) <;>
    simp

/-- Claim C1: in every execution of the orchestrated session in which the
lease acquisition succeeds (authentication, the e-stop assertion and
`getLease` itself do not raise), `returnLease` is invoked exactly once
before the session ends — on every exit path, including when entering
the keep-alive context or any later step (power-on, posture, move,
capture, power-off, log) raises an error: the `finally` block of
main.py lines 49-96 guarantees it. -/
theorem c1_lease_released_exactly_once (o : Oracle) (c : Config)
    (hA : o.authRaises = false) (hE : o.estopped = false) (hL : o.getLeaseRaises = false) :
    ((jduSpot o c).1).count Ev.returnLeaseEv = 1 := by
  have htrace : (jduSpot o c).1 =
      [Ev.authenticate, Ev.assertNotEstop, Ev.getLeaseEv] ++
        (if o.keepAliveRaises then [Ev.keepAliveStart]
         else Ev.keepAliveStart :: (runSeq (branchSteps o c)).1) ++ [Ev.returnLeaseEv] := by
    unfold jduSpot
    rw [hA, hE, hL]
    by_cases hk : o.keepAliveRaises <;> simp [hk]
  rw [htrace, List.count_append, List.count_append]
  have h0 : (if o.keepAliveRaises then [Ev.keepAliveStart]
      else Ev.keepAliveStart :: (runSeq (branchSteps o c)).1).count Ev.returnLeaseEv = 0 := by
    by_cases hk : o.keepAliveRaises
    · rw [if_pos hk]
      decide
    · rw [if_neg hk, List.count_cons]
      have hmem : Ev.returnLeaseEv ∉ (runSeq (branchSteps o c)).1 :=
        fun hm => returnLease_not_in_branchSteps o c (runSeq_mem_fst _ _ hm)
      rw [List.count_eq_zero.mpr hmem]
      decide
  rw [h0]
  decide

/-- Claim C1, witness: a concrete MOVE session in which `powerOn` raises
still releases the lease exactly once. -/
theorem c1_witness :
    ((jduSpot
        ⟨false, false, false, false, true, false, false, false, false, false, false, false,
          fun _ => false, false, false, false⟩
        ⟨.move, "back_fisheye_image".toList, "back".toList⟩).1).count Ev.returnLeaseEv = 1 :=
  c1_lease_released_exactly_once _ _ rfl rfl rfl

/-- Claim C7 is false of the program: the try/except of robot.py lines
286-294 does catch and log the decode exception, but it leaves `image`
bound to the raw protobuf message, and `ndimage.rotate` at line 296
then raises on that non-array value, so the capture aborts with an
uncaught error and persists no artifact (and `cv.imwrite` could not
write a protobuf even if it were reached). Evaluated at a concrete
capture of `back_depth` whose payload cannot be reshaped (six bytes,
three uint16 elements, 2×2 declared): the decode step raises, and
`getImage` propagates the rotate error instead of producing an
artifact. -/
theorem c7_decode_failure_aborts_capture :
    decodeStep "back_depth".toList ⟨.depthU16, .raw, 2, 2, [232, 3, 232, 3, 232, 3]⟩ =
        .error PyErr.valueError ∧
      getImage "back_depth".toList ⟨.depthU16, .raw, 2, 2, [232, 3, 232, 3, 232, 3]⟩ =
        .error PyErr.valueError :=
  ⟨rfl, rfl⟩

/-- Helper: every execution of `getDepthBlend` persists nothing or
raises nothing — an artifact appears only on the fully successful
path, after both decodes, both fusion steps, the angle lookup and the
rotation. -/
theorem getDepthBlend_empty_or_clean (o : FusionOracle) (camera : List Char)
    (df vf : SensorFrame) :
    (getDepthBlend o camera df vf).1 = [] ∨ (getDepthBlend o camera df vf).2 = none := by
  cases hd : convertDepthToImage df with
  | error e => left; simp [getDepthBlend, hd]
  | ok depthImg =>
    cases hv : convertVisualToImage vf with
    | error e => left; simp [getDepthBlend, hd, hv]
    | ok visual =>
      cases hvr : visualToRgb o visual with
      | error e => left; simp [getDepthBlend, hd, hv, hvr]
      | ok vrgb =>
        by_cases ha : o.addWeightedRaises = true
        · left; simp [getDepthBlend, hd, hv, hvr, ha]
        · cases hl : lookupAngle camera with
          | none => left; simp [getDepthBlend, hd, hv, hvr, ha, hl]
          | some a =>
            right
            simp [getDepthBlend, hd, hv, hvr, ha, hl, ndimageRotate, imgDims]

/-- Claim C8: for every blended capture in which decoding or fusion of
either frame raises an exception, the capture propagates the error and
persists no artifact. First conjunct: every execution of
`getDepthBlend` that raises — from either decode, from either
`cv.cvtColor`, from `cv.addWeighted`, from the angle lookup or from
the rotation — persists nothing. Second conjunct: a failing decode of
either frame, a failing GRAY2RGB conversion (executed on every fusion
path) or a failing `cv.addWeighted` each force that raising,
nothing-persisted outcome. -/
theorem c8_blend_failure_persists_nothing :
    (∀ (o : FusionOracle) (camera : List Char) (df vf : SensorFrame),
      (getDepthBlend o camera df vf).2.isSome = true →
        (getDepthBlend o camera df vf).1 = []) ∧
    (∀ (o : FusionOracle) (camera : List Char) (df vf : SensorFrame) (e : PyErr),
      (convertDepthToImage df = .error e ∨ convertVisualToImage vf = .error e ∨
        o.gray2rgbRaises = true ∨ o.addWeightedRaises = true) →
      (getDepthBlend o camera df vf).1 = [] ∧
        (getDepthBlend o camera df vf).2.isSome = true) := by
  constructor
  · intro o camera df vf h
    rcases getDepthBlend_empty_or_clean o camera df vf with h1 | h2
    · exact h1
    · rw [h2] at h
      exact absurd h (by simp)
  · intro o camera df vf e h
    rcases h with h | h | h | h
    · simp [getDepthBlend, h]
    · cases hd : convertDepthToImage df with
      | error e2 => simp [getDepthBlend, hd]
      | ok depthImg => simp [getDepthBlend, hd, h]
    · cases hd : convertDepthToImage df with
      | error e2 => simp [getDepthBlend, hd]
      | ok depthImg =>
        cases hv : convertVisualToImage vf with
        | error e2 => simp [getDepthBlend, hd, hv]
        | ok visual =>
          have hvr : visualToRgb o visual = .error .cvError := by
            unfold visualToRgb
            by_cases h3 : imgDims visual = 3 <;> simp [h3, h]
          simp [getDepthBlend, hd, hv, hvr]
    · cases hd : convertDepthToImage df with
      | error e2 => simp [getDepthBlend, hd]
      | ok depthImg =>
        cases hv : convertVisualToImage vf with
        | error e2 => simp [getDepthBlend, hd, hv]
        | ok visual =>
          cases hvr : visualToRgb o visual with
          | error e2 => simp [getDepthBlend, hd, hv, hvr]
          | ok vrgb => simp [getDepthBlend, hd, hv, hvr, h]

/-- Claim C8, witness: a forced fusion failure — `cv.addWeighted` raising
on a blend of two decodable frames — raises and persists nothing. -/
theorem c8_witness :
    (getDepthBlend ⟨false, false, true⟩ "back".toList
        ⟨.depthU16, .raw, 1, 2, [0, 0, 232, 3]⟩ ⟨.rgbU8, .raw, 1, 1, [7, 7, 7]⟩).1 = [] ∧
      (getDepthBlend ⟨false, false, true⟩ "back".toList
        ⟨.depthU16, .raw, 1, 2, [0, 0, 232, 3]⟩ ⟨.rgbU8, .raw, 1, 1, [7, 7, 7]⟩).2.isSome = true :=
  c8_blend_failure_persists_nothing.2 _ _ _ _ PyErr.cvError (Or.inr (Or.inr (Or.inr rfl)))

/-- Helper: correctness of the embedded Python prefix test. -/
theorem pyStartsWith_iff (n : List Char) :
    ∀ h : List Char, pyStartsWith n h = true ↔ ∃ r, h = n ++ r := by
  induction n with
  | nil =>
    intro h
    simp [pyStartsWith]
  | cons a ns ih =>
    intro h
    cases h with
    | nil => simp [pyStartsWith]
    | cons b hs =>
      rw [pyStartsWith]
      simp only [Bool.and_eq_true, beq_iff_eq, ih hs]
      constructor
      · rintro ⟨rfl, r, rfl⟩
        exact ⟨r, rfl⟩
      · rintro ⟨r, hr⟩
        rw [List.cons_append] at hr
        injection hr with h1 h2
        exact ⟨h1.symm, r, h2⟩

/-- Helper: correctness of the embedded Python substring test — it holds
exactly when the needle occurs contiguously inside the haystack. -/
theorem pyContains_iff (n : List Char) :
    ∀ h : List Char, pyContains n h = true ↔ ∃ l r, h = l ++ n ++ r := by
  intro h
  induction h with
  | nil =>
    rw [pyContains]
    simp only [List.isEmpty_iff]
    constructor
    · intro hn
      exact ⟨[], [], by simp [hn]⟩
    · rintro ⟨l, r, hlr⟩
      have h1 := (List.append_eq_nil.mp hlr.symm).1
      have h2 := (List.append_eq_nil.mp h1).2
      simp [h2]
  | cons c t ih =>
    rw [pyContains]
    simp only [Bool.or_eq_true, pyStartsWith_iff n, ih]
    constructor
    · rintro (⟨r, hr⟩ | ⟨l, r, hr⟩)
      · exact ⟨[], r, by simpa using hr⟩
      · exact ⟨c :: l, r, by simp [hr]⟩
    · rintro ⟨l, r, hlr⟩
      cases l with
      | nil =>
        left
        exact ⟨r, by simpa using hlr⟩
      | cons x xs =>
        right
        rw [List.cons_append, List.cons_append] at hlr
        injection hlr with h1 h2
        exact ⟨xs, r, h2⟩

/-- Helper: `source.split("_")[0]` returns exactly the prefix before the
first underscore. -/
theorem splitHead_prefix (pre post : List Char) (hpre : '_' ∉ pre) :
    splitHead (pre ++ '_' :: post) = pre := by
  induction pre with
  | nil => simp [splitHead]
  | cons c cs ih =>
    have hc : c ≠ '_' := fun h => hpre (by simp [h])
    simp only [List.cons_append, splitHead, if_neg hc, List.append_eq]
    rw [ih (fun h => hpre (List.mem_cons_of_mem _ h))]

/-- Helper: with no underscore in the name, `split("_")[0]` is the whole
name. -/
theorem splitHead_no_underscore (s : List Char) (h : '_' ∉ s) : splitHead s = s := by
  induction s with
  | nil => rfl
  | cons c cs ih =>
    have hc : c ≠ '_' := fun hch => h (by simp [hch])
    rw [splitHead, if_neg hc, ih (fun hm => h (List.mem_cons_of_mem _ hm))]

/-- Claim C9: the single-source capture selects its decode path by
substring match — the depth path is taken exactly when `"depth"` occurs
contiguously in the source name (so `..._depth_in_visual_frame` sources
are decoded as depth), all other names take the visual path — and the
rotation angle is looked up by the prefix of the name before the first
underscore, as witnessed on concrete source names from main.py. -/
theorem c9_dispatch_by_substring_and_key_prefix :
    (∀ s : List Char, decodeChoice s = DecodeChoice.depth ↔ ∃ l r, s = l ++ depthStr ++ r) ∧
    (∀ pre post : List Char, '_' ∉ pre → splitHead (pre ++ '_' :: post) = pre) ∧
    (∀ s : List Char, '_' ∉ s → splitHead s = s) ∧
    decodeChoice "back_depth_in_visual_frame".toList = DecodeChoice.depth ∧
    decodeChoice "back_fisheye_image".toList = DecodeChoice.visual ∧
    splitHead "frontleft_depth_in_visual_frame".toList = "frontleft".toList := by
  refine ⟨?_, splitHead_prefix, splitHead_no_underscore, by decide, by decide, by decide⟩
  intro s
  rw [← pyContains_iff depthStr s]
  unfold decodeChoice
  cases hb : pyContains depthStr s <;> simp [hb]

/-- Claim C9, witness: the rotation key of `back_depth` is `back`. -/
theorem c9_witness :
    splitHead ("back".toList ++ '_' :: "depth".toList) = "back".toList :=
  c9_dispatch_by_substring_and_key_prefix.2.1 _ _ (by decide)
